import Mathlib

/-!
Verification of the steadfast-courier webhook pipeline.

Shallow embedding of the inbound webhook pipeline of the `steadfast-courier`
TypeScript SDK: the Bearer-token verifier (`src/webhooks/verifier.ts`), the
payload parser (`src/webhooks/parser.ts`), the response helpers
(`src/webhooks/responses.ts`) and the dispatcher class
(`src/webhooks/handler.ts`), together with theorems settling the spec claims
about them.

Modelling conventions:
* JS numbers are IEEE-754 doubles; every value the pipeline inspects is
  compared or copied exactly, so they are modelled as rationals.  `NaN` and
  `-0` (both falsy, both of `typeof` "number") are outside the model.
* JS strings are modelled as Lean `String`s (sequences of Unicode scalar
  values).  Lone-surrogate JS strings are outside the model.  `s.length` is
  modelled as the number of characters; for the properties proved here the
  distinction from UTF-16 code-unit length is immaterial because every
  comparison is decided by the full byte-wise comparison that follows it.
* Thrown exceptions are modelled with `Except`; `handle`'s `try/catch` is the
  explicit `match` in `SteadfastWebhookHandler.handle`.
* `EventEmitter.emit` calls are modelled by the ordered list of emitted
  events that `handle` returns alongside its response.
-/

namespace Steadfast

/-- A decoded JavaScript value as it reaches the webhook pipeline
(`body: unknown` in the source).  JS arrays are not modelled (no claim
involves them). -/
inductive JSValue where
  | undefined
  | null
  | boolean (b : Bool)
  | num (n : Rat)
  | str (s : String)
  | obj (fields : List (String × JSValue))

/-- JS property access `payload.k` on an object: the first binding of `k`,
or `undefined` when the key is absent. -/
def jsGet (fields : List (String × JSValue)) (k : String) : JSValue :=
  (fields.lookup k).getD .undefined

/-- The values thrown inside the webhook pipeline.  `webhookError` models
`SteadfastWebhookError` and `validationError` models
`SteadfastValidationError` (both `Error` subclasses from
`src/utils/errors.ts`); `jsError` models a plain `Error` (e.g. the
`RangeError` of `crypto.timingSafeEqual` or an `Error` thrown by a user
callback); `nonError` models a thrown value that is not an `Error`
instance. -/
inductive JsThrown where
  | webhookError (message : String)
  | validationError (message : String)
  | jsError (message : String)
  | nonError
  deriving DecidableEq, Repr

/-- Models `error instanceof Error ? error.message : undefined`: every constructor
except `nonError` models an `Error` instance. -/
def JsThrown.message? : JsThrown → Option String
  | .webhookError m => some m
  | .validationError m => some m
  | .jsError m => some m
  | .nonError => none

/-! ## Verifier (`src/webhooks/verifier.ts`) -/

/-- JS `s.startsWith(p)`: prefix test on the character sequence. -/
def jsStartsWith (s p : String) : Bool :=
  p.data.isPrefixOf s.data

/-- JS `s.substring(n)`: the suffix of `s` from index `n`. -/
def jsSubstring (s : String) (n : Nat) : String :=
  ⟨s.data.drop n⟩

/-- The whitespace characters stripped by JS `s.trim()` (ECMAScript
WhiteSpace and LineTerminator; the common members suffice for this model). -/
def jsIsWhitespaceChar (c : Char) : Bool :=
  c = ' ' ∨ c = '\t' ∨ c = '\n' ∨ c = '\r' ∨ c = '\x0b' ∨ c = '\x0c' ∨
    c = ' ' ∨ c = '﻿'

/-- JS `s.trim()`: strip leading and trailing whitespace. -/
def jsTrim (s : String) : String :=
  ⟨((s.data.dropWhile jsIsWhitespaceChar).reverse.dropWhile
      jsIsWhitespaceChar).reverse⟩

/-- Model of `extractBearerToken(authHeader)` from `src/webhooks/verifier.ts`.
`none` models an absent (`undefined`/`null`) header; the source's
`if (!authHeader)` is also true for the empty string. -/
def extractBearerToken : Option String → Except JsThrown String
  | none => .error (.webhookError "Missing Authorization header")
  | some h =>
    if h = "" then .error (.webhookError "Missing Authorization header")
    else if jsStartsWith h "Bearer " = false then
      .error (.webhookError "Authorization header must use Bearer scheme")
    else if jsTrim (jsSubstring h 7) = "" then
      .error (.webhookError "Bearer token is empty")
    else .ok (jsTrim (jsSubstring h 7))

/-- The UTF-8 byte sequence of one code point (what `Buffer.from(s, 'utf8')`
produces per character). -/
def utf8EncodeNat (n : Nat) : List Nat :=
  if n < 0x80 then [n]
  else if n < 0x800 then [0xC0 + n / 0x40, 0x80 + n % 0x40]
  else if n < 0x10000 then
    [0xE0 + n / 0x1000, 0x80 + n / 0x40 % 0x40, 0x80 + n % 0x40]
  else
    [0xF0 + n / 0x40000, 0x80 + n / 0x1000 % 0x40, 0x80 + n / 0x40 % 0x40,
      0x80 + n % 0x40]

/-- The UTF-8 encoding of a character sequence. -/
def utf8EncodeList (l : List Char) : List Nat :=
  (l.map (fun c => utf8EncodeNat c.toNat)).flatten

/-- `Buffer.from(s, 'utf8')`: the UTF-8 bytes of the string. -/
def bufFromUtf8 (s : String) : List Nat :=
  utf8EncodeList s.data

/-- Decoder for one UTF-8-encoded code point at the head of a byte list;
a left inverse of `utf8EncodeNat`, used to prove the encoding injective. -/
def utf8DecodeOne : List Nat → Option (Nat × List Nat)
  | [] => none
  | b :: rest =>
    if b < 0x80 then some (b, rest)
    else if b < 0xE0 then
      match rest with
      | b1 :: r => some ((b - 0xC0) * 0x40 + (b1 - 0x80), r)
      | [] => none
    else if b < 0xF0 then
      match rest with
      | b1 :: b2 :: r =>
        some ((b - 0xE0) * 0x1000 + (b1 - 0x80) * 0x40 + (b2 - 0x80), r)
      | _ => none
    else
      match rest with
      | b1 :: b2 :: b3 :: r =>
        some ((b - 0xF0) * 0x40000 + (b1 - 0x80) * 0x1000 +
          (b2 - 0x80) * 0x40 + (b3 - 0x80), r)
      | _ => none

/-- Model of `crypto.timingSafeEqual(a, b)`: throws a `RangeError` when the buffers
have different byte lengths, otherwise reports whether the byte contents are
equal (the timing behaviour itself is outside a functional model). -/
def timingSafeEqual (a b : List Nat) : Except JsThrown Bool :=
  if a.length ≠ b.length then
    .error (.jsError "Input buffers must have the same byte length")
  else .ok (decide (a = b))

/-- Model of `verifyBearerToken(receivedToken, expectedToken)` from
`src/webhooks/verifier.ts`.  The source's `try { ... } catch { return
false; }` around `timingSafeEqual` is the `match` on the `Except`. -/
def verifyBearerToken (receivedToken expectedToken : String) : Bool :=
  if receivedToken = "" ∨ expectedToken = "" then false
  else if receivedToken.length ≠ expectedToken.length then false
  else
    match timingSafeEqual (bufFromUtf8 receivedToken)
        (bufFromUtf8 expectedToken) with
    | .ok r => r
    | .error _ => false

/-! ## Constants (`src/constants.ts`) -/

def SteadfastWebhookNotificationType.DELIVERY_STATUS : String :=
  "delivery_status"

def SteadfastWebhookNotificationType.TRACKING_UPDATE : String :=
  "tracking_update"

def SteadfastWebhookEvent.WEBHOOK : String := "steadfast_webhook"

def SteadfastWebhookEvent.DELIVERY_STATUS : String :=
  "steadfast_delivery_status"

def SteadfastWebhookEvent.TRACKING_UPDATE : String :=
  "steadfast_tracking_update"

def SteadfastWebhookEvent.ERROR : String := "steadfast_webhook_error"

/-! ## Payload types (`src/types/webhook.ts`) -/

/-- Interface `DeliveryStatusWebhook`.  The `status` field is kept as a string (as on
the wire); the parser is what restricts it to the enumerated set. -/
structure DeliveryStatusWebhook where
  notification_type : String
  consignment_id : Rat
  invoice : String
  cod_amount : Rat
  status : String
  delivery_charge : Rat
  tracking_message : String
  updated_at : String
  deriving DecidableEq, Repr

/-- Interface `TrackingUpdateWebhook`. -/
structure TrackingUpdateWebhook where
  notification_type : String
  consignment_id : Rat
  invoice : String
  tracking_message : String
  updated_at : String
  deriving DecidableEq, Repr

/-- Union type `WebhookPayload = DeliveryStatusWebhook | TrackingUpdateWebhook`. -/
inductive WebhookPayload where
  | deliveryStatus (p : DeliveryStatusWebhook)
  | trackingUpdate (p : TrackingUpdateWebhook)
  deriving DecidableEq, Repr

/-- The `notification_type` discriminant of a payload value. -/
def WebhookPayload.notification_type : WebhookPayload → String
  | .deliveryStatus p => p.notification_type
  | .trackingUpdate p => p.notification_type

/-! ## Responses (`src/webhooks/responses.ts`) -/

inductive ResponseStatus where
  | success
  | error
  deriving DecidableEq, Repr

/-- Shape `WebhookResponse`: a `status` tag plus a `message` string. -/
structure WebhookResponse where
  status : ResponseStatus
  message : String
  deriving DecidableEq, Repr

/-- The default argument of `createSuccessResponse`. -/
def defaultSuccessMessage : String := "Webhook received successfully."

/-- Model of `createSuccessResponse(message)` (the source defaults `message` to
`defaultSuccessMessage`; callers of the default pass it explicitly here). -/
def createSuccessResponse (message : String) : WebhookResponse :=
  ⟨.success, message⟩

/-- Model of `createErrorResponse(message)`. -/
def createErrorResponse (message : String) : WebhookResponse :=
  ⟨.error, message⟩

/-! ## Parser (`src/webhooks/parser.ts`) -/

def validStatuses : List String :=
  ["pending", "delivered", "partial_delivered", "cancelled", "unknown"]

def mustBeObjectMessage : String :=
  "Invalid webhook payload: must be an object"

def notificationTypeMessage : String :=
  "Invalid webhook payload: notification_type is required"

def consignmentIdMessage : String :=
  "Invalid webhook payload: consignment_id is required and must be a number"

def invoiceMessage : String :=
  "Invalid webhook payload: invoice is required and must be a string"

def updatedAtMessage : String :=
  "Invalid webhook payload: updated_at is required and must be a string"

def codAmountMessage : String :=
  "Invalid delivery_status webhook: cod_amount is required and must be a number"

def statusRequiredMessage : String :=
  "Invalid delivery_status webhook: status is required and must be a string"

def statusEnumMessage : String :=
  "Invalid delivery_status webhook: status must be one of " ++
    String.intercalate ", " validStatuses

def deliveryChargeMessage : String :=
  "Invalid delivery_status webhook: delivery_charge is required and must be a number"

def dsTrackingMessageMessage : String :=
  "Invalid delivery_status webhook: tracking_message is required and must be a string"

def tuTrackingMessageMessage : String :=
  "Invalid tracking_update webhook: tracking_message is required and must be a string"

/-- Models the unchecked TS cast `x as number`: only evaluated at spots where
an earlier guard in the same parse already established the type. -/
def JSValue.asNum : JSValue → Rat
  | .num n => n
  | _ => 0

/-- Models the unchecked TS cast `x as string`. -/
def JSValue.asStr : JSValue → String
  | .str s => s
  | _ => ""

/-- Model of `parseDeliveryStatusWebhook(payload)`.  Each `match`/`if` mirrors one
source check, in source order: a JS guard `!x || typeof x !== 'T'` fails
exactly on values that are not of type `T` or are falsy (`0` for numbers,
`""` for strings). -/
def parseDeliveryStatusWebhook (payload : List (String × JSValue)) :
    Except JsThrown DeliveryStatusWebhook :=
  match jsGet payload "cod_amount" with
  | .num cod =>
    match jsGet payload "status" with
    | .str status =>
      if status = "" then .error (.validationError statusRequiredMessage)
      else if validStatuses.contains status = false then
        .error (.validationError statusEnumMessage)
      else
        match jsGet payload "delivery_charge" with
        | .num charge =>
          match jsGet payload "tracking_message" with
          | .str tm =>
            if tm = "" then .error (.validationError dsTrackingMessageMessage)
            else
              .ok
                { notification_type :=
                    SteadfastWebhookNotificationType.DELIVERY_STATUS,
                  consignment_id := (jsGet payload "consignment_id").asNum,
                  invoice := (jsGet payload "invoice").asStr,
                  cod_amount := cod,
                  status := status,
                  delivery_charge := charge,
                  tracking_message := tm,
                  updated_at := (jsGet payload "updated_at").asStr }
          | _ => .error (.validationError dsTrackingMessageMessage)
        | _ => .error (.validationError deliveryChargeMessage)
    | _ => .error (.validationError statusRequiredMessage)
  | _ => .error (.validationError codAmountMessage)

/-- Model of `parseTrackingUpdateWebhook(payload)`. -/
def parseTrackingUpdateWebhook (payload : List (String × JSValue)) :
    Except JsThrown TrackingUpdateWebhook :=
  match jsGet payload "tracking_message" with
  | .str tm =>
    if tm = "" then .error (.validationError tuTrackingMessageMessage)
    else
      .ok
        { notification_type :=
            SteadfastWebhookNotificationType.TRACKING_UPDATE,
          consignment_id := (jsGet payload "consignment_id").asNum,
          invoice := (jsGet payload "invoice").asStr,
          tracking_message := tm,
          updated_at := (jsGet payload "updated_at").asStr }
  | _ => .error (.validationError tuTrackingMessageMessage)

/-- Model of `parseWebhookPayload(data)` from `src/webhooks/parser.ts`.  The source's
first guard `!data || typeof data !== 'object'` admits exactly non-null
objects, i.e. the `.obj` constructor of this model (`null` is of `typeof`
"object" but falsy). -/
def parseWebhookPayload : JSValue → Except JsThrown WebhookPayload
  | .obj payload =>
    match jsGet payload "notification_type" with
    | .str nt =>
      if nt = "" then .error (.validationError notificationTypeMessage)
      else
        match jsGet payload "consignment_id" with
        | .num cid =>
          if cid = 0 then .error (.validationError consignmentIdMessage)
          else
            match jsGet payload "invoice" with
            | .str inv =>
              if inv = "" then .error (.validationError invoiceMessage)
              else
                match jsGet payload "updated_at" with
                | .str upd =>
                  if upd = "" then .error (.validationError updatedAtMessage)
                  else if nt = SteadfastWebhookNotificationType.DELIVERY_STATUS
                  then
                    match parseDeliveryStatusWebhook payload with
                    | .ok p => .ok (.deliveryStatus p)
                    | .error e => .error e
                  else if nt = SteadfastWebhookNotificationType.TRACKING_UPDATE
                  then
                    match parseTrackingUpdateWebhook payload with
                    | .ok p => .ok (.trackingUpdate p)
                    | .error e => .error e
                  else
                    .error (.validationError
                      ("Unknown notification_type: " ++ nt))
                | _ => .error (.validationError updatedAtMessage)
            | _ => .error (.validationError invoiceMessage)
        | _ => .error (.validationError consignmentIdMessage)
    | _ => .error (.validationError notificationTypeMessage)
  | _ => .error (.validationError mustBeObjectMessage)

/-! ## Dispatcher (`src/webhooks/handler.ts`) -/

/-- One emitted event value: `EventEmitter.emit` is called either with a
parsed payload or with the caught error value. -/
inductive Emitted where
  | payload (p : WebhookPayload)
  | thrown (e : JsThrown)
  deriving DecidableEq, Repr

/-- One `emit(key, value)` call: event key paired with the emitted value. -/
abbrev Event := String × Emitted

/-- The configuration-holding state of a `SteadfastWebhookHandler` instance:
the credential, the `skipAuth` flag and the two optional callback slots.
A callback is modelled as a function that either completes or throws
(`handle` awaits it to completion either way). -/
structure SteadfastWebhookHandler where
  apiKey : String
  skipAuth : Bool
  deliveryStatusHandler : Option (DeliveryStatusWebhook → Except JsThrown Unit)
  trackingUpdateHandler : Option (TrackingUpdateWebhook → Except JsThrown Unit)

/-- The class constructor: throws when `!config.apiKey && !config.skipAuth`
(`config.skipAuth` is optional; `skipAuth` is stored as `config.skipAuth ??
false`). -/
def makeSteadfastWebhookHandler (apiKey : String) (skipAuth : Option Bool) :
    Except JsThrown SteadfastWebhookHandler :=
  if apiKey = "" ∧ skipAuth.getD false = false then
    .error (.jsError "apiKey is required when skipAuth is false")
  else .ok ⟨apiKey, skipAuth.getD false, none, none⟩

/-- Model of `onDeliveryStatus(handler)`: overwrite the single delivery-status
callback slot. -/
def SteadfastWebhookHandler.onDeliveryStatus (h : SteadfastWebhookHandler)
    (cb : DeliveryStatusWebhook → Except JsThrown Unit) :
    SteadfastWebhookHandler :=
  { h with deliveryStatusHandler := some cb }

/-- Model of `onTrackingUpdate(handler)`: overwrite the single tracking-update
callback slot. -/
def SteadfastWebhookHandler.onTrackingUpdate (h : SteadfastWebhookHandler)
    (cb : TrackingUpdateWebhook → Except JsThrown Unit) :
    SteadfastWebhookHandler :=
  { h with trackingUpdateHandler := some cb }

/-- The parse / emit / dispatch part of `handle`'s `try` block (everything
after the authentication guard).  Returns the pending result of the `try`
block together with the events emitted so far, in emission order. -/
def SteadfastWebhookHandler.dispatchPayload (h : SteadfastWebhookHandler)
    (body : JSValue) : Except JsThrown WebhookResponse × List Event :=
  match parseWebhookPayload body with
  | .error e => (.error e, [])
  | .ok payload =>
    let evs : List Event :=
      [(SteadfastWebhookEvent.WEBHOOK, .payload payload),
        (payload.notification_type, .payload payload)]
    match payload with
    | .deliveryStatus p =>
      match h.deliveryStatusHandler with
      | some cb =>
        match cb p with
        | .error e => (.error e, evs)
        | .ok _ =>
          (.ok (createSuccessResponse defaultSuccessMessage),
            evs ++ [(SteadfastWebhookEvent.DELIVERY_STATUS, .payload payload)])
      | none =>
        (.ok (createSuccessResponse defaultSuccessMessage),
          evs ++ [(SteadfastWebhookEvent.DELIVERY_STATUS, .payload payload)])
    | .trackingUpdate p =>
      match h.trackingUpdateHandler with
      | some cb =>
        match cb p with
        | .error e => (.error e, evs)
        | .ok _ =>
          (.ok (createSuccessResponse defaultSuccessMessage),
            evs ++ [(SteadfastWebhookEvent.TRACKING_UPDATE, .payload payload)])
      | none =>
        (.ok (createSuccessResponse defaultSuccessMessage),
          evs ++ [(SteadfastWebhookEvent.TRACKING_UPDATE, .payload payload)])

/-- The whole `try` block of `handle`: authentication guard, then
`dispatchPayload`. -/
def SteadfastWebhookHandler.handleTry (h : SteadfastWebhookHandler)
    (body : JSValue) (authHeader : Option String) :
    Except JsThrown WebhookResponse × List Event :=
  if h.skipAuth = false then
    match extractBearerToken authHeader with
    | .error e => (.error e, [])
    | .ok token =>
      if verifyBearerToken token h.apiKey = false then
        (.ok (createErrorResponse "Invalid authentication token"), [])
      else h.dispatchPayload body
  else h.dispatchPayload body

/-- Model of `handle(body, authHeader)`: the `try` block, with the `catch` block
converting any thrown value into an error response (using the thrown
`Error`'s message, or the fixed fallback) after emitting the error event.
The returned handler state models `this` after the call. -/
def SteadfastWebhookHandler.handle (h : SteadfastWebhookHandler)
    (body : JSValue) (authHeader : Option String) :
    WebhookResponse × List Event × SteadfastWebhookHandler :=
  match h.handleTry body authHeader with
  | (.ok resp, evs) => (resp, evs, h)
  | (.error e, evs) =>
    (createErrorResponse
        (match e.message? with
          | some m => m
          | none => "Unknown error occurred"),
      evs ++ [(SteadfastWebhookEvent.ERROR, .thrown e)], h)

/-! ## Sample inputs used by witnesses and counterexamples -/

/-- The delivery-status request body parameterized over all field values:
all keys present, `notification_type`/field types as the delivery-status
variant expects. -/
def mkDeliveryStatusBody (cid : Rat) (inv : String) (cod : Rat)
    (status : String) (charge : Rat) (tmsg : String) (upd : String) :
    JSValue :=
  .obj [("notification_type", .str "delivery_status"),
        ("consignment_id", .num cid),
        ("invoice", .str inv),
        ("cod_amount", .num cod),
        ("status", .str status),
        ("delivery_charge", .num charge),
        ("tracking_message", .str tmsg),
        ("updated_at", .str upd)]

/-- The webhook body of spec Scenario A. -/
def sampleDeliveryBody : JSValue :=
  mkDeliveryStatusBody 12345 "INV-67890" 1500 "delivered" 100 "Delivered"
    "2025-03-02 12:45:30"

/-- A dispatcher configured with the test credential, authentication
enabled, and a registered delivery-status callback that completes
normally. -/
def c2Handler : SteadfastWebhookHandler :=
  ⟨"test-api-key", false, some (fun _ => .ok ()), none⟩

/-! ## UTF-8 encoding is injective -/

set_option maxRecDepth 8192 in
theorem utf8DecodeOne_encodeNat (n : Nat) (rest : List Nat) :
    utf8DecodeOne (utf8EncodeNat n ++ rest) = some (n, rest) := by
  have hm64 : n % 0x40 < 0x40 := Nat.mod_lt _ (by norm_num)
  have hd64 := Nat.div_add_mod n 0x40
  have hd64' := Nat.div_add_mod (n / 0x40) 0x40
  have hdd : n / 0x40 / 0x40 = n / 0x1000 := by rw [Nat.div_div_eq_div_mul]
  have hd4096 := Nat.div_add_mod (n / 0x1000) 0x40
  have hddd : n / 0x1000 / 0x40 = n / 0x40000 := by
    rw [Nat.div_div_eq_div_mul]
  have hm64' : n / 0x40 % 0x40 < 0x40 := Nat.mod_lt _ (by norm_num)
  have hm64'' : n / 0x1000 % 0x40 < 0x40 := Nat.mod_lt _ (by norm_num)
  unfold utf8EncodeNat
  by_cases h1 : n < 0x80
  · rw [if_pos h1]
    simp [utf8DecodeOne, h1]
  · rw [if_neg h1]
    by_cases h2 : n < 0x800
    · rw [if_pos h2]
      have hb1 : ¬ (0xC0 + n / 0x40 < 0x80) := by omega
      have hb2 : 0xC0 + n / 0x40 < 0xE0 := by omega
      simp only [List.cons_append, utf8DecodeOne, if_neg hb1, if_pos hb2]
      congr 2
      omega
    · rw [if_neg h2]
      by_cases h3 : n < 0x10000
      · rw [if_pos h3]
        have hb1 : ¬ (0xE0 + n / 0x1000 < 0x80) := by omega
        have hb2 : ¬ (0xE0 + n / 0x1000 < 0xE0) := by omega
        have hb3 : 0xE0 + n / 0x1000 < 0xF0 := by omega
        simp only [List.cons_append, utf8DecodeOne, if_neg hb1, if_neg hb2,
          if_pos hb3]
        congr 2
        omega
      · rw [if_neg h3]
        have hb1 : ¬ (0xF0 + n / 0x40000 < 0x80) := by omega
        have hb2 : ¬ (0xF0 + n / 0x40000 < 0xE0) := by omega
        have hb3 : ¬ (0xF0 + n / 0x40000 < 0xF0) := by omega
        simp only [List.cons_append, utf8DecodeOne, if_neg hb1, if_neg hb2,
          if_neg hb3]
        congr 2
        omega

theorem utf8EncodeList_injective :
    ∀ l1 l2 : List Char, utf8EncodeList l1 = utf8EncodeList l2 → l1 = l2 := by
  intro l1
  induction l1 with
  | nil =>
    intro l2 h
    cases l2 with
    | nil => rfl
    | cons c t =>
      exfalso
      have h' := congrArg utf8DecodeOne h
      rw [show utf8EncodeList (c :: t) =
          utf8EncodeNat c.toNat ++ utf8EncodeList t by
        simp [utf8EncodeList]] at h'
      rw [utf8DecodeOne_encodeNat] at h'
      simp [utf8EncodeList, utf8DecodeOne] at h'
  | cons c t ih =>
    intro l2 h
    cases l2 with
    | nil =>
      exfalso
      have h' := congrArg utf8DecodeOne h
      rw [show utf8EncodeList (c :: t) =
          utf8EncodeNat c.toNat ++ utf8EncodeList t by
        simp [utf8EncodeList]] at h'
      rw [utf8DecodeOne_encodeNat] at h'
      simp [utf8EncodeList, utf8DecodeOne] at h'
    | cons c' t' =>
      have h' := congrArg utf8DecodeOne h
      rw [show utf8EncodeList (c :: t) =
          utf8EncodeNat c.toNat ++ utf8EncodeList t by simp [utf8EncodeList],
        show utf8EncodeList (c' :: t') =
          utf8EncodeNat c'.toNat ++ utf8EncodeList t' by
          simp [utf8EncodeList],
        utf8DecodeOne_encodeNat, utf8DecodeOne_encodeNat] at h'
      rw [Option.some.injEq, Prod.mk.injEq] at h'
      obtain ⟨hc, ht⟩ := h'
      have hcc : c = c' := by
        have h2 : Char.ofNat c.toNat = Char.ofNat c'.toNat := by rw [hc]
        rwa [Char.ofNat_toNat, Char.ofNat_toNat] at h2
      rw [hcc, ih t' ht]

theorem bufFromUtf8_injective (a b : String)
    (h : bufFromUtf8 a = bufFromUtf8 b) : a = b :=
  String.ext (utf8EncodeList_injective _ _ h)

/-! ## Parser shape lemmas -/


theorem parseDeliveryStatusWebhook_error_shape
    (payload : List (String × JSValue)) (e : JsThrown)
    (h : parseDeliveryStatusWebhook payload = .error e) :
    ∃ m, e = .validationError m := by
  unfold parseDeliveryStatusWebhook at h
  repeat' split at h
  all_goals first
    | exact Except.noConfusion h
    | (injection h with h; exact ⟨_, h.symm⟩)

theorem parseTrackingUpdateWebhook_error_shape
    (payload : List (String × JSValue)) (e : JsThrown)
    (h : parseTrackingUpdateWebhook payload = .error e) :
    ∃ m, e = .validationError m := by
  unfold parseTrackingUpdateWebhook at h
  repeat' split at h
  all_goals first
    | exact Except.noConfusion h
    | (injection h with h; exact ⟨_, h.symm⟩)

theorem parseWebhookPayload_error_shape (data : JSValue) (e : JsThrown)
    (h : parseWebhookPayload data = .error e) :
    ∃ m, e = .validationError m := by
  cases data <;> simp only [parseWebhookPayload] at h
  case obj payload =>
    repeat' split at h
    all_goals first
      | exact Except.noConfusion h
      | (injection h with h; exact ⟨_, h.symm⟩)
      | (injection h with h; subst h;
         exact parseDeliveryStatusWebhook_error_shape _ _ (by assumption))
      | (injection h with h; subst h;
         exact parseTrackingUpdateWebhook_error_shape _ _ (by assumption))
  all_goals (injection h with h; exact ⟨_, h.symm⟩)

theorem parseDeliveryStatusWebhook_ok (payload : List (String × JSValue))
    (p : DeliveryStatusWebhook) (h : parseDeliveryStatusWebhook payload = .ok p) :
    p.status ∈ validStatuses ∧ jsGet payload "status" = .str p.status ∧
    jsGet payload "cod_amount" = .num p.cod_amount ∧
    p.notification_type = SteadfastWebhookNotificationType.DELIVERY_STATUS := by
  unfold parseDeliveryStatusWebhook at h
  repeat' split at h
  all_goals try exact Except.noConfusion h
  injection h with h
  subst h
  refine ⟨by simp_all, by assumption, by assumption, rfl⟩

theorem parseWebhookPayload_ok_deliveryStatus (data : JSValue)
    (p : DeliveryStatusWebhook)
    (h : parseWebhookPayload data = .ok (.deliveryStatus p)) :
    ∃ payload, data = .obj payload ∧
      parseDeliveryStatusWebhook payload = .ok p := by
  cases data <;> simp only [parseWebhookPayload] at h
  case obj payload =>
    repeat' split at h
    all_goals first
      | exact Except.noConfusion h
      | (injection h with h; exact WebhookPayload.noConfusion h)
      | (injection h with h; injection h with h; subst h;
         exact ⟨_, rfl, by assumption⟩)
  all_goals exact Except.noConfusion h

theorem parseWebhookPayload_ok_trackingUpdate (data : JSValue)
    (q : TrackingUpdateWebhook)
    (h : parseWebhookPayload data = .ok (.trackingUpdate q)) :
    ∃ payload, data = .obj payload ∧
      jsGet payload "notification_type" =
        .str SteadfastWebhookNotificationType.TRACKING_UPDATE := by
  cases data <;> simp only [parseWebhookPayload] at h
  case obj payload =>
    repeat' split at h
    all_goals first
      | exact Except.noConfusion h
      | (injection h with h; exact WebhookPayload.noConfusion h)
      | exact ⟨_, rfl, by simp_all⟩
  all_goals exact Except.noConfusion h

/-! ## Claim C3 -/

/-- Claim C3: `verifyBearerToken` is a total Boolean function (totality is by
construction in this embedding: the caught `timingSafeEqual` exception is the
only throwing sub-step); it returns `true` on `(x, x)` for non-empty `x`, and
`false` whenever the two inputs differ or either is empty. -/
theorem verifyBearerToken_spec (x y : String) :
    (x ≠ "" → verifyBearerToken x x = true) ∧
    (x ≠ y → verifyBearerToken x y = false) ∧
    verifyBearerToken "" y = false ∧ verifyBearerToken x "" = false := by
  refine ⟨?_, ?_, ?_, ?_⟩
  · intro hx
    unfold verifyBearerToken
    rw [if_neg (by simp [hx])]
    rw [if_neg (by simp)]
    unfold timingSafeEqual
    rw [if_neg (by simp)]
    simp
  · intro hxy
    unfold verifyBearerToken
    by_cases hx : x = "" ∨ y = ""
    · rw [if_pos hx]
    · rw [if_neg hx]
      by_cases hlen : x.length = y.length
      · rw [if_neg (by simp [hlen])]
        unfold timingSafeEqual
        by_cases hbl : (bufFromUtf8 x).length = (bufFromUtf8 y).length
        · rw [if_neg (by simp [hbl])]
          have hne : bufFromUtf8 x ≠ bufFromUtf8 y := fun hb =>
            hxy (bufFromUtf8_injective x y hb)
          simp [hne]
        · rw [if_pos (by simpa using hbl)]
      · rw [if_pos (by simpa using hlen)]
  · unfold verifyBearerToken
    rw [if_pos (Or.inl rfl)]
  · unfold verifyBearerToken
    rw [if_pos (Or.inr rfl)]

/-- Witness for claim C3 at concrete tokens. -/
theorem verifyBearerToken_spec_witness :
    verifyBearerToken "api-key" "api-key" = true ∧
    verifyBearerToken "wrong" "api-key" = false ∧
    verifyBearerToken "" "api-key" = false :=
  ⟨(verifyBearerToken_spec "api-key" "api-key").1 (by decide),
    (verifyBearerToken_spec "wrong" "api-key").2.1 (by decide),
    (verifyBearerToken_spec "" "api-key").2.2.1⟩

/-! ## Claim C4 -/

theorem bearer_append_ne_empty (rest : String) : "Bearer " ++ rest ≠ "" := by
  intro h
  have h2 := congrArg String.data h
  rw [String.data_append] at h2
  rcases List.append_eq_nil.mp h2 with ⟨h3, _⟩
  exact absurd h3 (by decide)

theorem jsStartsWith_bearer_append (rest : String) :
    jsStartsWith ("Bearer " ++ rest) "Bearer " = true := by
  unfold jsStartsWith
  rw [String.data_append, List.isPrefixOf_iff_prefix]
  exact List.prefix_append _ _

theorem jsSubstring_bearer_append (rest : String) :
    jsSubstring ("Bearer " ++ rest) 7 = rest := by
  unfold jsSubstring
  rw [String.data_append,
    show (7 : Nat) = "Bearer ".data.length from rfl, List.drop_left]

/-- Claim C4: `extractBearerToken` returns the trimmed token for every header
of the form `Bearer <token>` whose remainder trims to a non-empty string,
and fails with a `SteadfastWebhookError` (never returning a token) for an
absent header, a header without the exact `Bearer ` prefix, or a
whitespace-only remainder. -/
theorem extractBearerToken_spec :
    (∀ rest : String, jsTrim rest ≠ "" →
        extractBearerToken (some ("Bearer " ++ rest)) = .ok (jsTrim rest)) ∧
    (extractBearerToken none =
      .error (.webhookError "Missing Authorization header")) ∧
    (∀ s : String, jsStartsWith s "Bearer " = false →
        ∃ m, extractBearerToken (some s) = .error (.webhookError m)) ∧
    (∀ rest : String, jsTrim rest = "" →
        ∃ m, extractBearerToken (some ("Bearer " ++ rest)) =
          .error (.webhookError m)) := by
  refine ⟨?_, rfl, ?_, ?_⟩
  · intro rest h
    simp only [extractBearerToken]
    rw [if_neg (bearer_append_ne_empty rest),
      if_neg (by simp [jsStartsWith_bearer_append]),
      jsSubstring_bearer_append, if_neg h]
  · intro s hs
    simp only [extractBearerToken]
    by_cases he : s = ""
    · rw [if_pos he]
      exact ⟨_, rfl⟩
    · rw [if_neg he, if_pos hs]
      exact ⟨_, rfl⟩
  · intro rest h
    simp only [extractBearerToken]
    rw [if_neg (bearer_append_ne_empty rest),
      if_neg (by simp [jsStartsWith_bearer_append]),
      jsSubstring_bearer_append, if_pos h]
    exact ⟨_, rfl⟩

/-- Witness for claim C4 at concrete headers. -/
theorem extractBearerToken_spec_witness :
    extractBearerToken (some "Bearer  my-key ") = .ok "my-key" ∧
    (∃ m, extractBearerToken (some "Token abc") =
      .error (.webhookError m)) ∧
    (∃ m, extractBearerToken (some "Bearer    ") =
      .error (.webhookError m)) :=
  ⟨extractBearerToken_spec.1 " my-key " (by decide),
    extractBearerToken_spec.2.2.1 "Token abc" (by decide),
    extractBearerToken_spec.2.2.2 "   " (by decide)⟩

/-! ## Claims C5, C6, C7, C8 -/


/-- Claim C5: a delivery-status payload whose `status` field is a string
outside the set pending / delivered / partial_delivered / cancelled /
unknown is rejected with a validation error, and `parseWebhookPayload`
never constructs a `DeliveryStatusWebhook` whose status lies outside that
set. -/
theorem parse_status_enum_spec :
    (∀ data p, parseWebhookPayload data = .ok (.deliveryStatus p) →
        p.status ∈ validStatuses) ∧
    (∀ fields s,
        jsGet fields "notification_type" =
          .str SteadfastWebhookNotificationType.DELIVERY_STATUS →
        jsGet fields "status" = .str s → s ∉ validStatuses →
        ∃ m, parseWebhookPayload (.obj fields) =
          .error (.validationError m)) := by
  constructor
  · intro data p h
    obtain ⟨payload, rfl, hds⟩ := parseWebhookPayload_ok_deliveryStatus data p h
    exact (parseDeliveryStatusWebhook_ok payload p hds).1
  · intro fields s hnt hs hmem
    rcases hr : parseWebhookPayload (.obj fields) with e | q
    · obtain ⟨m, rfl⟩ := parseWebhookPayload_error_shape _ e hr
      exact ⟨m, rfl⟩
    · exfalso
      cases q with
      | deliveryStatus p =>
        obtain ⟨payload, hobj, hds⟩ :=
          parseWebhookPayload_ok_deliveryStatus _ p hr
        injection hobj with hobj
        subst hobj
        obtain ⟨hmem', hstat, -, -⟩ := parseDeliveryStatusWebhook_ok _ p hds
        have hss := hs.symm.trans hstat
        injection hss with hss
        exact hmem (hss ▸ hmem')
      | trackingUpdate q =>
        obtain ⟨payload, hobj, hnt'⟩ :=
          parseWebhookPayload_ok_trackingUpdate _ q hr
        injection hobj with hobj
        subst hobj
        have hd := hnt.symm.trans hnt'
        injection hd with hd
        exact absurd hd (by decide)

/-- Witness for claim C5 at Scenario A and Scenario F bodies. -/
theorem parse_status_enum_spec_witness :
    ({ notification_type := "delivery_status", consignment_id := 12345,
       invoice := "INV-67890", cod_amount := 1500, status := "delivered",
       delivery_charge := 100, tracking_message := "Delivered",
       updated_at := "2025-03-02 12:45:30" } :
        DeliveryStatusWebhook).status ∈ validStatuses ∧
    ∃ m, parseWebhookPayload
        (mkDeliveryStatusBody 12345 "INV-1" 1500 "invalid_status" 100 "msg"
          "2025-03-02 12:45:30") = .error (.validationError m) :=
  ⟨parse_status_enum_spec.1 sampleDeliveryBody _ rfl,
    parse_status_enum_spec.2 _ "invalid_status" rfl rfl (by decide)⟩

/-- Claim C7 (amended): the parser guarantees only that `cod_amount` is a
number copied verbatim from the input object; it does not enforce
non-negativity, so a successfully parsed delivery-status payload carries
exactly the (possibly negative) input `cod_amount`. -/
theorem parse_cod_amount_verbatim (data : JSValue) (p : DeliveryStatusWebhook)
    (h : parseWebhookPayload data = .ok (.deliveryStatus p)) :
    ∃ fields, data = .obj fields ∧
      jsGet fields "cod_amount" = .num p.cod_amount := by
  obtain ⟨payload, rfl, hds⟩ := parseWebhookPayload_ok_deliveryStatus data p h
  exact ⟨payload, rfl, (parseDeliveryStatusWebhook_ok _ _ hds).2.2.1⟩

/-- Witness for claim C7 (amended) at a concrete negative-COD body. -/
theorem parse_cod_amount_verbatim_witness :
    ∃ fields,
      mkDeliveryStatusBody 777 "INV-7" (-50) "delivered" 60 "msg" "t" =
        .obj fields ∧
      jsGet fields "cod_amount" = .num (-50) :=
  parse_cod_amount_verbatim _
    { notification_type := "delivery_status", consignment_id := 777,
      invoice := "INV-7", cod_amount := -50, status := "delivered",
      delivery_charge := 60, tracking_message := "msg", updated_at := "t" }
    rfl

/-- Counterexample to claim C7 as stated: a delivery-status body with
`cod_amount = -50` parses successfully into a payload whose cash-on-delivery
amount is negative, so parsed payloads do not satisfy `cod_amount >= 0`. -/
theorem parse_negative_cod_counterexample :
    parseWebhookPayload
        (mkDeliveryStatusBody 12345 "INV-67890" (-50) "delivered" 100
          "Delivered" "2025-03-02 12:45:30") =
      .ok (.deliveryStatus
        { notification_type := "delivery_status", consignment_id := 12345,
          invoice := "INV-67890", cod_amount := -50, status := "delivered",
          delivery_charge := 100, tracking_message := "Delivered",
          updated_at := "2025-03-02 12:45:30" }) ∧
    ¬ (0 : Rat) ≤ -50 :=
  ⟨rfl, by norm_num⟩

/-- Claim C8 (amended): for every delivery-status input whose fields are
well-typed, whose strings are non-empty, whose status is in the fixed enum,
and whose `consignment_id` is additionally non-zero (the code's truthiness
check rejects 0), `parseWebhookPayload` returns a `DeliveryStatusWebhook`
whose eight fields equal the corresponding input fields exactly, with no
coercion, normalization or default-filling. -/
theorem parse_deliveryStatus_roundtrip (cid : Rat) (inv : String) (cod : Rat)
    (status : String) (charge : Rat) (tmsg : String) (upd : String)
    (hcid : cid ≠ 0) (hinv : inv ≠ "") (hupd : upd ≠ "") (htm : tmsg ≠ "")
    (hst : status ∈ validStatuses) :
    parseWebhookPayload (mkDeliveryStatusBody cid inv cod status charge tmsg
        upd) =
      .ok (.deliveryStatus
        { notification_type := SteadfastWebhookNotificationType.DELIVERY_STATUS,
          consignment_id := cid, invoice := inv, cod_amount := cod,
          status := status, delivery_charge := charge,
          tracking_message := tmsg, updated_at := upd }) := by
  have hstne : status ≠ "" := by
    rintro rfl
    simp [validStatuses] at hst
  have hcont : validStatuses.contains status = true :=
    List.elem_eq_true_of_mem hst
  simp [mkDeliveryStatusBody, parseWebhookPayload, parseDeliveryStatusWebhook,
    jsGet, List.lookup, hcid, hinv, hupd, htm, hstne, hcont, hst, JSValue.asNum,
    JSValue.asStr, SteadfastWebhookNotificationType.DELIVERY_STATUS,
    SteadfastWebhookNotificationType.TRACKING_UPDATE]

/-- Witness for claim C8 (amended) at the Scenario A body. -/
theorem parse_deliveryStatus_roundtrip_witness :
    parseWebhookPayload
        (mkDeliveryStatusBody 12345 "INV-67890" 1500 "delivered" 100
          "Delivered" "2025-03-02 12:45:30") =
      .ok (.deliveryStatus
        { notification_type := SteadfastWebhookNotificationType.DELIVERY_STATUS,
          consignment_id := 12345, invoice := "INV-67890", cod_amount := 1500,
          status := "delivered", delivery_charge := 100,
          tracking_message := "Delivered",
          updated_at := "2025-03-02 12:45:30" }) :=
  parse_deliveryStatus_roundtrip 12345 "INV-67890" 1500 "delivered" 100
    "Delivered" "2025-03-02 12:45:30" (by norm_num) (by decide) (by decide)
    (by decide) (by decide)

/-- Counterexample to claim C8 as stated: a delivery-status body all of
whose fields are present with correct types (`consignment_id` is the number
0) and whose status is in the enum does not round-trip: the parser throws
the consignment-id validation error instead of returning a payload. -/
theorem parse_roundtrip_zero_cid_counterexample :
    parseWebhookPayload
        (mkDeliveryStatusBody 0 "INV-22222" 250 "pending" 50 "On the way"
          "2025-04-01 08:00:00") =
      .error (.validationError consignmentIdMessage) := rfl

/-- Helper: the unknown-notification-type message never equals the
consignment-id message (their first characters differ). -/
theorem unknown_message_ne_cid (nt : String) :
    "Unknown notification_type: " ++ nt ≠ consignmentIdMessage := by
  intro h
  have h2 := congrArg String.data h
  rw [String.data_append] at h2
  have h3 : ("Unknown notification_type: ".data ++ nt.data).head? =
      some 'U' := rfl
  rw [h2] at h3
  exact absurd h3 (by decide)

theorem parseDeliveryStatusWebhook_ne_cid (payload : List (String × JSValue)) :
    parseDeliveryStatusWebhook payload ≠
      .error (.validationError consignmentIdMessage) := by
  intro h
  unfold parseDeliveryStatusWebhook at h
  repeat' split at h
  all_goals first
    | exact Except.noConfusion h
    | (injection h with h; injection h with h; exact absurd h (by decide))

theorem parseTrackingUpdateWebhook_ne_cid (payload : List (String × JSValue)) :
    parseTrackingUpdateWebhook payload ≠
      .error (.validationError consignmentIdMessage) := by
  intro h
  unfold parseTrackingUpdateWebhook at h
  repeat' split at h
  all_goals first
    | exact Except.noConfusion h
    | (injection h with h; injection h with h; exact absurd h (by decide))

/-- Claim C6 (amended): the `consignment_id` base-field check accepts every
non-zero number (the parse never fails with the consignment-id message),
but, contrary to the claim, the number 0 is rejected by the source's
truthiness guard even though it is a number. -/
theorem parse_consignment_id_check :
    (∀ fields (n : Rat), jsGet fields "consignment_id" = .num n → n ≠ 0 →
        parseWebhookPayload (.obj fields) ≠
          .error (.validationError consignmentIdMessage)) ∧
    (∀ fields nt, jsGet fields "notification_type" = .str nt → nt ≠ "" →
        jsGet fields "consignment_id" = .num 0 →
        parseWebhookPayload (.obj fields) =
          .error (.validationError consignmentIdMessage)) := by
  constructor
  · intro fields n hcid hn h
    simp only [parseWebhookPayload, hcid] at h
    repeat' split at h
    all_goals first
      | exact Except.noConfusion h
      | exact hn (by assumption)
      | (injection h with h; injection h with h;
         first
           | exact absurd h (by decide)
           | exact unknown_message_ne_cid _ h)
      | (injection h with h; subst h;
         exact parseDeliveryStatusWebhook_ne_cid _ (by assumption))
      | (injection h with h; subst h;
         exact parseTrackingUpdateWebhook_ne_cid _ (by assumption))
  · intro fields nt hnt hne hcid
    simp only [parseWebhookPayload, hnt, hcid, if_neg hne]
    simp

/-- Witness for claim C6 (amended) at concrete bodies with ids 12345 and 0. -/
theorem parse_consignment_id_check_witness :
    (parseWebhookPayload
        (mkDeliveryStatusBody 12345 "INV-67890" 1500 "delivered" 100
          "Delivered" "2025-03-02 12:45:30") ≠
      .error (.validationError consignmentIdMessage)) ∧
    parseWebhookPayload
        (mkDeliveryStatusBody 0 "INV-67890" 1500 "delivered" 100 "Delivered"
          "2025-03-02 12:45:30") =
      .error (.validationError consignmentIdMessage) :=
  ⟨parse_consignment_id_check.1 _ 12345 rfl (by norm_num),
    parse_consignment_id_check.2 _ "delivery_status" rfl (by decide) rfl⟩

/-- Counterexample to claim C6 as stated: a body whose `consignment_id` is
the number 0 (all other base fields valid) fails the consignment-id
base-field check, although the claim says any number passes it. -/
theorem parse_zero_consignment_counterexample :
    parseWebhookPayload
        (mkDeliveryStatusBody 0 "INV-0" 10 "pending" 5 "msg"
          "2025-01-01 00:00:00") =
      .error (.validationError consignmentIdMessage) := rfl

/-! ## Dispatcher shape lemmas -/

theorem dispatchPayload_ok_shape (h : SteadfastWebhookHandler)
    (body : JSValue) (r : WebhookResponse) (evs : List Event)
    (hd : h.dispatchPayload body = (.ok r, evs)) :
    r = createSuccessResponse defaultSuccessMessage := by
  unfold SteadfastWebhookHandler.dispatchPayload at hd
  repeat' split at hd
  all_goals (have h1 := congrArg Prod.fst hd)
  all_goals first
    | exact Except.noConfusion h1
    | (injection h1 with h1; exact h1.symm)

theorem handleTry_ok_shape (h : SteadfastWebhookHandler) (body : JSValue)
    (hdr : Option String) (r : WebhookResponse) (evs : List Event)
    (ht : h.handleTry body hdr = (.ok r, evs)) :
    r = createErrorResponse "Invalid authentication token" ∨
    r = createSuccessResponse defaultSuccessMessage := by
  unfold SteadfastWebhookHandler.handleTry at ht
  repeat' split at ht
  all_goals first
    | (have h1 := congrArg Prod.fst ht; exact Except.noConfusion h1)
    | (have h1 := congrArg Prod.fst ht; injection h1 with h1;
       exact Or.inl h1.symm)
    | exact Or.inr (dispatchPayload_ok_shape _ _ _ _ ht)

/-- Claim C1: `handle` is total (never throws — in this embedding every
thrown value is caught by the `catch` branch of `handle`) and always
returns a `WebhookResponse`: either the success shape with the default
success message, or the error shape carrying some message. -/
theorem handle_never_throws (h : SteadfastWebhookHandler) (body : JSValue)
    (hdr : Option String) :
    (h.handle body hdr).1 = createSuccessResponse defaultSuccessMessage ∨
    ∃ m, (h.handle body hdr).1 = createErrorResponse m := by
  unfold SteadfastWebhookHandler.handle
  rcases hh : h.handleTry body hdr with ⟨r, evs⟩
  cases r with
  | error e => exact Or.inr ⟨_, rfl⟩
  | ok resp =>
    rcases handleTry_ok_shape h body hdr resp evs hh with rfl | rfl
    · exact Or.inr ⟨_, rfl⟩
    · exact Or.inl rfl

/-- Claim C2 (amended): with authentication enabled, a well-formed Bearer
header whose token fails verification makes `handle` return exactly the
error response `Invalid authentication token` while emitting no events at
all (contrary to the claim, no error event is emitted on this path), not
parsing the payload, and leaving every registered callback uninvoked (the
result is the same for every body and every registered callback). -/
theorem handle_invalid_token (h : SteadfastWebhookHandler) (body : JSValue)
    (hdr : Option String) (token : String) (hskip : h.skipAuth = false)
    (hex : extractBearerToken hdr = .ok token)
    (hver : verifyBearerToken token h.apiKey = false) :
    h.handle body hdr =
      (createErrorResponse "Invalid authentication token", [], h) := by
  unfold SteadfastWebhookHandler.handle SteadfastWebhookHandler.handleTry
  rw [hskip, hex]
  simp [hver]

/-- Witness for claim C2 (amended): Scenario B concrete inputs. -/
theorem handle_invalid_token_witness :
    c2Handler.handle sampleDeliveryBody (some "Bearer wrong-token") =
      (createErrorResponse "Invalid authentication token", [], c2Handler) :=
  handle_invalid_token c2Handler sampleDeliveryBody _ "wrong-token" rfl rfl
    (by decide)

/-- Counterexample to claim C2 as stated: on a wrong Bearer token the
dispatcher returns the `Invalid authentication token` error response but
emits an empty event list — no error event is emitted, although the claim
says one is. -/
theorem handle_invalid_token_counterexample :
    (c2Handler.handle sampleDeliveryBody (some "Bearer wrong-token")).2.1 =
      [] ∧
    (c2Handler.handle sampleDeliveryBody (some "Bearer wrong-token")).1 =
      createErrorResponse "Invalid authentication token" := ⟨rfl, rfl⟩

/-- Claim C9: callback registration is last-write-wins — registering `f`
then `g` yields exactly the state obtained by registering `g` alone, the
single stored reference is `g`, and `handle` behaves identically to a
dispatcher that never saw `f`; likewise for tracking-update callbacks. -/
theorem callback_registration_replaces (st : SteadfastWebhookHandler)
    (f g : DeliveryStatusWebhook → Except JsThrown Unit)
    (f' g' : TrackingUpdateWebhook → Except JsThrown Unit)
    (body : JSValue) (hdr : Option String) :
    ((st.onDeliveryStatus f).onDeliveryStatus g = st.onDeliveryStatus g) ∧
    ((st.onDeliveryStatus g).deliveryStatusHandler = some g) ∧
    (((st.onDeliveryStatus f).onDeliveryStatus g).handle body hdr =
      (st.onDeliveryStatus g).handle body hdr) ∧
    ((st.onTrackingUpdate f').onTrackingUpdate g' = st.onTrackingUpdate g') ∧
    ((st.onTrackingUpdate g').trackingUpdateHandler = some g') :=
  ⟨rfl, rfl, rfl, rfl, rfl⟩

/-- Claim C10 (frame property): `handle` leaves the dispatcher state
unchanged on every input and on every path — the stored `apiKey`,
`skipAuth` flag and both callback slots are identical before and after the
call. -/
theorem handle_preserves_config (st : SteadfastWebhookHandler)
    (body : JSValue) (hdr : Option String) :
    (st.handle body hdr).2.2 = st ∧
    (st.handle body hdr).2.2.apiKey = st.apiKey ∧
    (st.handle body hdr).2.2.skipAuth = st.skipAuth ∧
    (st.handle body hdr).2.2.deliveryStatusHandler =
      st.deliveryStatusHandler ∧
    (st.handle body hdr).2.2.trackingUpdateHandler =
      st.trackingUpdateHandler := by
  have key : (st.handle body hdr).2.2 = st := by
    unfold SteadfastWebhookHandler.handle
    rcases hh : st.handleTry body hdr with ⟨r, evs⟩
    cases r <;> rfl
  exact ⟨key, by rw [key], by rw [key], by rw [key], by rw [key]⟩

end Steadfast
